import Mathlib

/-!
# Verification of the crypto-spot-screener detection core

A shallow embedding of the repository's Python sources
(`cmd.py`, `main.py`, `notification.py`, `screener/buyonbreakout.py`,
`screener/rising3methods.py`) together with theorems settling the frozen
claims about the natural-language specification.

Modelling conventions:
* Python floats are modelled as rationals (`ℚ`); float rounding error is
  abstracted away, exact arithmetic is used.
* A Python function that can raise `ZeroDivisionError` is modelled in the
  `Except Unit` monad; `pydiv` is Python's `/`, which raises on a zero
  divisor (also for floats).
* Python OHLCV candles are 6-element lists `[timestamp, open, high, low,
  close, volume]`; they are modelled as a record whose fields correspond to
  indices 0..5 (field `opn` is index 1, Python `open`).
* Python dicts with string keys (the screener's result dicts) are modelled
  as association lists in insertion order (`Signal`).
* The network exchange (`ccxt`) is external I/O; it is modelled as an
  oracle function passed explicitly (symbol/timeframe/limit ↦ outcome),
  with a constructor per exception class the scanner distinguishes.
* `print` side effects that the claims mention (error log lines, the result
  table) are returned as explicit trace components of the functions that
  produce them.
-/

/-- One OHLCV sample.  In the source a candle is the list
`[timestamp, open, high, low, close, volume]` (indices 0-5); here each
index becomes a named field (`opn` = index 1 = Python `open`). -/
structure Candle where
  ts : ℤ
  opn : ℚ
  high : ℚ
  low : ℚ
  close : ℚ
  volume : ℚ
deriving DecidableEq, Repr, Inhabited

/-- A value stored in one of the screener's Python result dicts: either a
string (the `signal` / `symbol` entries) or a number. -/
inductive Val where
  | str (s : String)
  | num (q : ℚ)
deriving DecidableEq, Repr

/-- A screener result dict (Python `dict[str, ...]`), modelled as an
association list in insertion order. -/
abbrev Signal : Type := List (String × Val)

/-- Python's `/` on numbers: raises `ZeroDivisionError` on a zero divisor
(also for floats), otherwise exact division (float rounding abstracted). -/
def pydiv (a b : ℚ) : Except Unit ℚ :=
  if b = 0 then .error () else .ok (a / b)

/-- Python's `round` to an integer: round-half-to-even (banker's rounding). -/
def round_half_even (x : ℚ) : ℤ :=
  if x - ⌊x⌋ < 1/2 then ⌊x⌋
  else if 1/2 < x - ⌊x⌋ then ⌊x⌋ + 1
  else if ⌊x⌋ % 2 = 0 then ⌊x⌋ else ⌊x⌋ + 1

/-- Python's `round(x, 2)`. -/
def py_round_2 (x : ℚ) : ℚ :=
  (round_half_even (x * 100) : ℚ) / 100

/-- Python's `max` over a list (the empty case never arises at its call
site, where the list has exactly 20 elements). -/
def list_max : List ℚ → ℚ
  | [] => 0
  | x :: xs => xs.foldl max x

/-- The candle invariant stated by the spec's data model:
`low <= open, close <= high` for every candle of the series. -/
def WellFormed (ohlcv : List Candle) : Prop :=
  ∀ cd ∈ ohlcv, cd.low ≤ cd.opn ∧ cd.low ≤ cd.close ∧
    cd.opn ≤ cd.high ∧ cd.close ≤ cd.high

instance (ohlcv : List Candle) : Decidable (WellFormed ohlcv) := by
  unfold WellFormed
  infer_instance

namespace Buyonbreakout

/-- `closes = [c[4] for c in ohlcv]`. -/
def closes (ohlcv : List Candle) : List ℚ := ohlcv.map (·.close)

/-- `volumes = [c[5] for c in ohlcv]`. -/
def volumes (ohlcv : List Candle) : List ℚ := ohlcv.map (·.volume)

/-- `current_close = closes[-1]` (the guard makes the list non-empty, so
the default value is never used). -/
def current_close (ohlcv : List Candle) : ℚ := (closes ohlcv).getLastD 0

/-- `current_volume = volumes[-1]`. -/
def current_volume (ohlcv : List Candle) : ℚ := (volumes ohlcv).getLastD 0

/-- `lookback_closes = closes[-21:-1]`: for a list of length `n ≥ 22` the
Python slice keeps indices `n-21 .. n-2`, i.e. drop `n - 21` then take 20. -/
def lookback_closes (ohlcv : List Candle) : List ℚ :=
  ((closes ohlcv).drop ((closes ohlcv).length - 21)).take 20

/-- `lookback_volumes = volumes[-21:-1]`. -/
def lookback_volumes (ohlcv : List Candle) : List ℚ :=
  ((volumes ohlcv).drop ((volumes ohlcv).length - 21)).take 20

/-- `highest_close = max(lookback_closes)`. -/
def highest_close (ohlcv : List Candle) : ℚ := list_max (lookback_closes ohlcv)

/-- `avg_volume = sum(lookback_volumes) / len(lookback_volumes)` (the
divisor is 20 whenever the length guard has passed). -/
def avg_volume (ohlcv : List Candle) : ℚ :=
  (lookback_volumes ohlcv).sum / ((lookback_volumes ohlcv).length : ℚ)

/-- `screener/buyonbreakout.py`, `analyze`: 20-candle breakout detection.
The `Except Unit` layer records that the `vol_ratio` division
`current_volume / avg_volume` is Python division and raises when the
average volume is zero. -/
def analyze (ohlcv : List Candle) : Except Unit (Option Signal) :=
  if ohlcv.length < 22 then .ok none
  else
    if current_close ohlcv > highest_close ohlcv ∧
        current_volume ohlcv > avg_volume ohlcv then
      match pydiv (current_volume ohlcv) (avg_volume ohlcv) with
      | .error e => .error e
      | .ok r =>
        .ok (some [("signal", Val.str "BUY_ON_BREAKOUT"),
                   ("close", Val.num (current_close ohlcv)),
                   ("volume", Val.num (current_volume ohlcv)),
                   ("prev_high", Val.num (highest_close ohlcv)),
                   ("avg_volume", Val.num (avg_volume ohlcv)),
                   ("vol_ratio", Val.num (py_round_2 r))])
    else .ok none

end Buyonbreakout

namespace Rising3methods

/-- `LARGE_CANDLE_BODY_RATIO = 0.6`. -/
def LARGE_CANDLE_BODY_RATIO : ℚ := 6/10

/-- `SMALL_CANDLE_MAX_BODY_RATIO = 0.5`. -/
def SMALL_CANDLE_MAX_BODY_RATIO : ℚ := 5/10

/-- `is_bullish(candle)`: `candle[4] > candle[1]` (close > open). -/
def is_bullish (candle : Candle) : Bool := candle.close > candle.opn

/-- `body_size(candle)`: `abs(candle[4] - candle[1])`. -/
def body_size (candle : Candle) : ℚ := |candle.close - candle.opn|

/-- `candle_range(candle)`: `candle[2] - candle[3]` (high - low). -/
def candle_range (candle : Candle) : ℚ := candle.high - candle.low

/-- `c1 = ohlcv[-5]` (valid once the length guard has passed; the default
is never used then). -/
def c1 (ohlcv : List Candle) : Candle := ohlcv.getD (ohlcv.length - 5) default

/-- `c2 = ohlcv[-4]`. -/
def c2 (ohlcv : List Candle) : Candle := ohlcv.getD (ohlcv.length - 4) default

/-- `c3 = ohlcv[-3]`. -/
def c3 (ohlcv : List Candle) : Candle := ohlcv.getD (ohlcv.length - 3) default

/-- `c4 = ohlcv[-2]`. -/
def c4 (ohlcv : List Candle) : Candle := ohlcv.getD (ohlcv.length - 2) default

/-- `c5 = ohlcv[-1]`. -/
def c5 (ohlcv : List Candle) : Candle := ohlcv.getD (ohlcv.length - 1) default

/-- Body of the `for cx in (c2, c3, c4)` loop in `analyze`: `.ok false`
means one of the three `return None` branches fired for this candle,
`.ok true` means the loop continues.  The body-ratio division is evaluated
only under the Python short-circuit guard `c1_body > 0 and ...`. -/
def middle_ok (c1_open c1_close c1_body : ℚ) (cx : Candle) : Except Unit Bool :=
  if cx.close ≤ c1_open ∨ cx.close ≥ c1_close then .ok false
  else if cx.opn ≤ c1_open ∨ cx.opn ≥ c1_close then .ok false
  else if c1_body > 0 then
    match pydiv (body_size cx) c1_body with
    | .error e => .error e
    | .ok r => .ok (decide (¬(r > SMALL_CANDLE_MAX_BODY_RATIO)))
  else .ok true

/-- The candle-5 largeness guard of `analyze`: `.ok false` means
`c5_range > 0 and (c5_body / c5_range) < LARGE_CANDLE_BODY_RATIO`
fired (`return None`), `.ok true` means execution continues. -/
def c5_large_ok (cx : Candle) : Except Unit Bool :=
  if candle_range cx > 0 then
    match pydiv (body_size cx) (candle_range cx) with
    | .error e => .error e
    | .ok r => .ok (decide (¬(r < LARGE_CANDLE_BODY_RATIO)))
  else .ok true

/-- `screener/rising3methods.py`, `analyze`: detect the Rising Three
Methods pattern on the last 5 candles, short-circuiting on the first
failing condition exactly as the source does. -/
def analyze (ohlcv : List Candle) : Except Unit (Option Signal) :=
  if ohlcv.length < 5 then .ok none
  else
    if is_bullish (c1 ohlcv) = false then .ok none
    else if candle_range (c1 ohlcv) = 0 then .ok none
    else
      match pydiv (body_size (c1 ohlcv)) (candle_range (c1 ohlcv)) with
      | .error e => .error e
      | .ok r1 =>
        if r1 < LARGE_CANDLE_BODY_RATIO then .ok none
        else
          match middle_ok (c1 ohlcv).opn (c1 ohlcv).close (body_size (c1 ohlcv)) (c2 ohlcv) with
          | .error e => .error e
          | .ok false => .ok none
          | .ok true =>
            match middle_ok (c1 ohlcv).opn (c1 ohlcv).close (body_size (c1 ohlcv)) (c3 ohlcv) with
            | .error e => .error e
            | .ok false => .ok none
            | .ok true =>
              match middle_ok (c1 ohlcv).opn (c1 ohlcv).close (body_size (c1 ohlcv)) (c4 ohlcv) with
              | .error e => .error e
              | .ok false => .ok none
              | .ok true =>
                if is_bullish (c5 ohlcv) = false then .ok none
                else
                  match c5_large_ok (c5 ohlcv) with
                  | .error e => .error e
                  | .ok false => .ok none
                  | .ok true =>
                    if (c5 ohlcv).close ≤ (c1 ohlcv).close then .ok none
                    else
                      .ok (some [("signal", Val.str "RISING_3_METHODS"),
                                 ("close", Val.num (c5 ohlcv).close),
                                 ("volume", Val.num (c5 ohlcv).volume),
                                 ("c1_close", Val.num (c1 ohlcv).close),
                                 ("c5_close", Val.num (c5 ohlcv).close)])

/-- Variant of `middle_ok` in which the `c1_body > 0` short-circuit guard
is removed, i.e. the small-body ratio check is never skipped.  Used to
state that the guard in the source is always true at its evaluation point
(claim about `analyze` never skipping the small-body check). -/
def middle_check_always (c1_open c1_close c1_body : ℚ) (cx : Candle) : Except Unit Bool :=
  if cx.close ≤ c1_open ∨ cx.close ≥ c1_close then .ok false
  else if cx.opn ≤ c1_open ∨ cx.opn ≥ c1_close then .ok false
  else
    match pydiv (body_size cx) c1_body with
    | .error e => .error e
    | .ok r => .ok (decide (¬(r > SMALL_CANDLE_MAX_BODY_RATIO)))

/-- `analyze` with `middle_ok` replaced by `middle_check_always`: the
small-body check applied unconditionally to each of the middle candles. -/
def analyze_check_always (ohlcv : List Candle) : Except Unit (Option Signal) :=
  if ohlcv.length < 5 then .ok none
  else
    if is_bullish (c1 ohlcv) = false then .ok none
    else if candle_range (c1 ohlcv) = 0 then .ok none
    else
      match pydiv (body_size (c1 ohlcv)) (candle_range (c1 ohlcv)) with
      | .error e => .error e
      | .ok r1 =>
        if r1 < LARGE_CANDLE_BODY_RATIO then .ok none
        else
          match middle_check_always (c1 ohlcv).opn (c1 ohlcv).close (body_size (c1 ohlcv)) (c2 ohlcv) with
          | .error e => .error e
          | .ok false => .ok none
          | .ok true =>
            match middle_check_always (c1 ohlcv).opn (c1 ohlcv).close (body_size (c1 ohlcv)) (c3 ohlcv) with
            | .error e => .error e
            | .ok false => .ok none
            | .ok true =>
              match middle_check_always (c1 ohlcv).opn (c1 ohlcv).close (body_size (c1 ohlcv)) (c4 ohlcv) with
              | .error e => .error e
              | .ok false => .ok none
              | .ok true =>
                if is_bullish (c5 ohlcv) = false then .ok none
                else
                  match c5_large_ok (c5 ohlcv) with
                  | .error e => .error e
                  | .ok false => .ok none
                  | .ok true =>
                    if (c5 ohlcv).close ≤ (c1 ohlcv).close then .ok none
                    else
                      .ok (some [("signal", Val.str "RISING_3_METHODS"),
                                 ("close", Val.num (c5 ohlcv).close),
                                 ("volume", Val.num (c5 ohlcv).volume),
                                 ("c1_close", Val.num (c1 ohlcv).close),
                                 ("c5_close", Val.num (c5 ohlcv).close)])

end Rising3methods

/-- Outcome of `exchange.fetch_ohlcv(symbol, timeframe=..., limit=...)`:
either a candle series, or one of the exception classes the scanner's
`try/except` distinguishes (`ccxt.NetworkError`, `ccxt.ExchangeError`,
any other `Exception`). -/
inductive FetchOutcome where
  | ok (series : List Candle)
  | network
  | exchange
  | other
deriving DecidableEq, Repr

/-- The market-data client, an injected capability: what
`exchange.fetch_ohlcv` does for each `(symbol, timeframe, limit)`. -/
def Fetcher : Type := String → String → ℤ → FetchOutcome

/-- One `[!] ... error for {symbol}` line printed by a scanner's
`except` handler (`network`/`exchange` for the two ccxt classes,
`unexpected` for the catch-all `except Exception`). -/
inductive LogEvent where
  | network (symbol : String)
  | exchange (symbol : String)
  | unexpected (symbol : String)
deriving DecidableEq, Repr

/-- What a scanner `run` produces: the returned `results` list plus the
trace of error log lines it printed. -/
structure ScanOutput where
  results : List Signal
  logged : List LogEvent
deriving DecidableEq

/-- The `for symbol in symbols` loop shared verbatim by
`buyonbreakout.run` and `rising3methods.run`, parametrised by the
module's `analyze`.  `results`/`logged` are the Python accumulator lists
(appended to in place).  A `ZeroDivisionError` raised by `analyze` inside
the `try` block is caught by the catch-all `except Exception` handler. -/
def scan_go (analyzeFn : List Candle → Except Unit (Option Signal))
    (fetch : Fetcher) (timeframe : String) (limit : ℤ)
    (results : List Signal) (logged : List LogEvent) :
    List String → ScanOutput
  | [] => ⟨results, logged⟩
  | symbol :: rest =>
    match fetch symbol timeframe limit with
    | .network => scan_go analyzeFn fetch timeframe limit
        results (logged ++ [.network symbol]) rest
    | .exchange => scan_go analyzeFn fetch timeframe limit
        results (logged ++ [.exchange symbol]) rest
    | .other => scan_go analyzeFn fetch timeframe limit
        results (logged ++ [.unexpected symbol]) rest
    | .ok series =>
      if series = [] then
        scan_go analyzeFn fetch timeframe limit results logged rest
      else
        match analyzeFn series with
        | .error _ => scan_go analyzeFn fetch timeframe limit
            results (logged ++ [.unexpected symbol]) rest
        | .ok none => scan_go analyzeFn fetch timeframe limit
            results logged rest
        | .ok (some result) => scan_go analyzeFn fetch timeframe limit
            (results ++ [result ++ [("symbol", Val.str symbol)]]) logged rest

namespace Buyonbreakout

/-- `screener/buyonbreakout.py`, `run`: scan all symbols with the breakout
`analyze`, starting from empty accumulators. -/
def run (fetch : Fetcher) (symbols : List String)
    (timeframe : String) (limit : ℤ) : ScanOutput :=
  scan_go analyze fetch timeframe limit [] [] symbols

end Buyonbreakout

namespace Rising3methods

/-- `screener/rising3methods.py`, `run`: identical loop with the
rising-three `analyze`. -/
def run (fetch : Fetcher) (symbols : List String)
    (timeframe : String) (limit : ℤ) : ScanOutput :=
  scan_go analyze fetch timeframe limit [] [] symbols

end Rising3methods

namespace Cmd

/-- A strategy runner as stored in `cmd.py`'s `strategy_map`
(`_run_buyonbreakout` / `_run_rising3methods`): takes the exchange (here
the fetch oracle), the symbol list, timeframe and limit, and returns the
module's `run(...)` result list. -/
def Runner : Type := Fetcher → List String → String → ℤ → List Signal

/-- `strategy_map = {"buyonbreakout": _run_buyonbreakout,
"rising3methods": _run_rising3methods}`. -/
def strategy_map : List (String × Runner) :=
  [("buyonbreakout", fun fetch symbols timeframe limit =>
      (Buyonbreakout.run fetch symbols timeframe limit).results),
   ("rising3methods", fun fetch symbols timeframe limit =>
      (Rising3methods.run fetch symbols timeframe limit).results)]

/-- Python `symbols[:n]` for an `int` n: keeps the first `n` entries, and
for negative `n` drops the last `|n|` entries. -/
def py_take (l : List String) (n : ℤ) : List String :=
  if 0 ≤ n then l.take n.toNat else l.take (l.length - (-n).toNat)

/-- The `if top_n: symbols = symbols[:top_n]` truncation of
`run_screener` (`None` and `0` are falsy, so they leave the list alone). -/
def apply_top (symbols : List String) (top_n : Option ℤ) : List String :=
  match top_n with
  | none => symbols
  | some n => if n = 0 then symbols else py_take symbols n

/-- What a call to `run_screener` does: `sys.exit(1)` on an unknown
strategy, otherwise it completes, passing `printed` to
`print_results(...)` and returning `ret` (the function body has no
`return` statement, so Python returns `None`). -/
inductive RunResult where
  | exited (code : ℕ)
  | completed (printed : List Signal) (ret : Option (List Signal))
deriving DecidableEq

/-- `cmd.py`, `run_screener`: dispatcher.  `list_symbols` stands for
`fetch_spot_symbols(exchange, quote=quote)` (external market data: the
sorted active spot pairs for the quote currency) and `fetch` for the
exchange's `fetch_ohlcv`. -/
def run_screener (list_symbols : String → List String) (fetch : Fetcher)
    (strategy timeframe : String) (limit : ℤ) (quote : String)
    (top_n : Option ℤ) : RunResult :=
  match strategy_map.lookup strategy with
  | none => .exited 1
  | some runner =>
    let symbols := apply_top (list_symbols quote) top_n
    let results := runner fetch symbols timeframe limit
    .completed results none

end Cmd

namespace MainCli

/-- `main.py`, `VALID_STRATEGIES`. -/
def VALID_STRATEGIES : List String := ["buyonbreakout", "rising3methods"]

/-- `main.py`, `VALID_TIMEFRAMES`. -/
def VALID_TIMEFRAMES : List String := ["1m", "3m", "5m", "15m"]

/-- A parsed argparse namespace for `main.py`. -/
structure Args where
  strategy : String
  tf : String
  limit : ℤ
  quote : String
  top : Option ℤ
  webhook : Option String
deriving DecidableEq

/-- The argument sets the CLI parser accepts: `--strategy` and `--tf` are
restricted by `choices=...`; the remaining options are unconstrained. -/
def args_valid (a : Args) : Prop :=
  a.strategy ∈ VALID_STRATEGIES ∧ a.tf ∈ VALID_TIMEFRAMES

instance (a : Args) : Decidable (args_valid a) := by
  unfold args_valid
  infer_instance

/-- The parameter names of `cmd.run_screener(strategy, timeframe,
limit=100, quote="USDT", top_n=None)` (no `**kwargs`). -/
def run_screener_params : List String :=
  ["strategy", "timeframe", "limit", "quote", "top_n"]

/-- The keyword arguments of the call `run_screener(strategy=...,
timeframe=..., limit=..., quote=..., top_n=..., webhook_url=...)` in
`main.py`'s `main()`. -/
def main_call_kwargs : List String :=
  ["strategy", "timeframe", "limit", "quote", "top_n", "webhook_url"]

/-- What evaluating `main()` does after argument parsing: Python binds
the call's keyword arguments against the callee's parameter list and
raises `TypeError` (an unexpected keyword argument) if one does not
match, before executing the callee's body. -/
inductive MainOutcome where
  | typeError
  | ran (r : Cmd.RunResult)
deriving DecidableEq

/-- `main.py`, `main()`: prints the banner, then evaluates the
`run_screener(...)` call; the call is executed only if every keyword
argument is a parameter of `cmd.run_screener`. -/
def main (list_symbols : String → List String) (fetch : Fetcher)
    (args : Args) : MainOutcome :=
  if main_call_kwargs.all (fun k => run_screener_params.contains k) then
    .ran (Cmd.run_screener list_symbols fetch args.strategy args.tf
      args.limit args.quote args.top)
  else .typeError

end MainCli

namespace Notification

/-- An entry of `STRATEGY_META` (emoji decorations dropped from the label
strings; they carry no logic). -/
structure Meta where
  label : String
  description : String
deriving DecidableEq

/-- `notification.py`, `STRATEGY_META`. -/
def STRATEGY_META : List (String × Meta) :=
  [("buyonbreakout",
    ⟨"Buy on Breakout", "Breakout above 20-day high with volume confirmation"⟩),
   ("rising3methods",
    ⟨"Rising Three Methods", "Classic bullish continuation candlestick pattern"⟩)]

/-- `notification.py`, `_default_strategy_meta`. -/
def default_strategy_meta (strategy : String) : Meta :=
  ⟨strategy.toUpper, "Custom screening strategy"⟩

/-- A Discord embed as far as its logical content goes: either the header
summary built by `_build_header_embed` (strategy label, timeframe, quote,
match count, scan timestamp) or one result chunk built by
`_build_results_embed` (the chunk's signals, its index, the chunk count). -/
inductive Embed where
  | header (label timeframe quote : String) (result_count : ℕ) (timestamp : String)
  | results (chunk : List Signal) (chunk_index total_chunks : ℕ)
deriving DecidableEq

/-- `DiscordNotifier` state: the resolved webhook URL (constructor
argument or `DISCORD_WEBHOOK_URL`, possibly empty). -/
structure DiscordNotifier where
  webhook_url : String
deriving DecidableEq

/-- The chunking expression of `send_results`:
`[results[i:i + 20] for i in range(0, len(results), 20)]`
(`range(0, n, 20)` enumerates the ⌈n/20⌉ multiples of 20 below `n`). -/
def chunks_of_20 (results : List Signal) : List (List Signal) :=
  (List.range' 0 ((results.length + 19) / 20) 20).map
    (fun i => (results.drop i).take 20)

/-- `notification.py`, `DiscordNotifier.send_results`: returns the embeds
posted, in posting order, together with the returned success flag.
`post` is the HTTP transport (`_post_embed`), `now` the formatted scan
timestamp; both are external effects passed as oracles. -/
def send_results (notifier : DiscordNotifier) (post : Embed → Bool)
    (now : String) (results : List Signal)
    (strategy timeframe quote : String) : List Embed × Bool :=
  if notifier.webhook_url = "" then ([], false)
  else
    let meta := ((STRATEGY_META.lookup strategy).getD
      (default_strategy_meta strategy))
    let header := Embed.header meta.label timeframe quote results.length now
    let success := post header
    if results = [] then ([header], success)
    else
      let chunks := chunks_of_20 results
      let embeds := chunks.enum.map
        (fun p => Embed.results p.2 p.1 chunks.length)
      (header :: embeds, embeds.foldl (fun acc e => acc && post e) success)

end Notification

/-! ## Helper lemmas and master characterizations -/

namespace Buyonbreakout

/-- The result dict built by a successful breakout detection, with the
`vol_ratio` division written out. -/
def breakout_signal (ohlcv : List Candle) : Signal :=
  [("signal", Val.str "BUY_ON_BREAKOUT"),
   ("close", Val.num (current_close ohlcv)),
   ("volume", Val.num (current_volume ohlcv)),
   ("prev_high", Val.num (highest_close ohlcv)),
   ("avg_volume", Val.num (avg_volume ohlcv)),
   ("vol_ratio", Val.num (py_round_2 (current_volume ohlcv / avg_volume ohlcv)))]

/-- Master characterization of the breakout `analyze`: guard, breakout
condition, and the single division, which raises exactly when the
average lookback volume is zero. -/
theorem breakout_analyze_eq (ohlcv : List Candle) :
    analyze ohlcv =
      if ohlcv.length < 22 then .ok none
      else if current_close ohlcv > highest_close ohlcv ∧
          current_volume ohlcv > avg_volume ohlcv then
        if avg_volume ohlcv = 0 then .error ()
        else .ok (some (breakout_signal ohlcv))
      else .ok none := by
  unfold analyze pydiv breakout_signal
  by_cases h : avg_volume ohlcv = 0 <;> simp [h]

end Buyonbreakout

namespace Rising3methods

/-- What it means for a middle candle to pass the loop body: open and
close strictly inside `(c1_open, c1_close)`, and, when the reference body
is positive, a body of at most half of it. -/
def middle_pass (c1_open c1_close c1_body : ℚ) (cx : Candle) : Prop :=
  (c1_open < cx.close ∧ cx.close < c1_close) ∧
  (c1_open < cx.opn ∧ cx.opn < c1_close) ∧
  (0 < c1_body → body_size cx ≤ SMALL_CANDLE_MAX_BODY_RATIO * c1_body)

instance (a b c : ℚ) (cx : Candle) : Decidable (middle_pass a b c cx) := by
  unfold middle_pass
  infer_instance

/-- The loop body never raises (its division is evaluated only under the
`c1_body > 0` short-circuit guard) and passes exactly on `middle_pass`. -/
theorem middle_ok_eq (a b c : ℚ) (cx : Candle) :
    middle_ok a b c cx = .ok (decide (middle_pass a b c cx)) := by
  unfold middle_ok middle_pass pydiv
  split_ifs with h1 h2 h3 h4
  · congr 1
    symm
    apply decide_eq_false
    rintro ⟨⟨hc1, hc2⟩, -, -⟩
    rcases h1 with h | h <;> linarith
  · congr 1
    symm
    apply decide_eq_false
    rintro ⟨-, ⟨ho1, ho2⟩, -⟩
    rcases h2 with h | h <;> linarith
  · linarith
  · push_neg at h1 h2
    rw [Except.ok.injEq, decide_eq_decide]
    constructor
    · intro h
      exact ⟨h1, h2, fun _ => (div_le_iff₀ h3).mp (not_lt.mp h)⟩
    · intro hp
      exact not_lt.mpr ((div_le_iff₀ h3).mpr (hp.2.2 h3))
  · push_neg at h1 h2 h3
    congr 1
    symm
    apply decide_eq_true
    exact ⟨h1, h2, fun hc => absurd hc (not_lt.mpr h3)⟩

end Rising3methods

namespace Rising3methods

/-- The candle-5 largeness guard never raises and passes exactly when a
positive range forces the large-body ratio. -/
theorem c5_large_ok_eq (cx : Candle) :
    c5_large_ok cx = .ok (decide (0 < candle_range cx →
      LARGE_CANDLE_BODY_RATIO ≤ body_size cx / candle_range cx)) := by
  unfold c5_large_ok pydiv
  split_ifs with h1 h2
  · linarith
  · rw [Except.ok.injEq, decide_eq_decide]
    constructor
    · intro h _
      exact not_lt.mp h
    · intro h
      exact not_lt.mpr (h h1)
  · push_neg at h1
    congr 1
    symm
    apply decide_eq_true
    intro hc
    linarith

/-- The Rising Three Methods match condition over the last five candles,
as the specification words it: `c1` large bullish with nonzero range,
`c2..c4` small candles strictly inside `c1`'s body, `c5` bullish, large
whenever its range is positive, closing strictly above `c1`'s close. -/
def rising_match (ohlcv : List Candle) : Prop :=
  5 ≤ ohlcv.length ∧
  (is_bullish (c1 ohlcv) = true ∧ candle_range (c1 ohlcv) ≠ 0 ∧
    LARGE_CANDLE_BODY_RATIO ≤ body_size (c1 ohlcv) / candle_range (c1 ohlcv)) ∧
  (∀ cx ∈ [c2 ohlcv, c3 ohlcv, c4 ohlcv],
    middle_pass (c1 ohlcv).opn (c1 ohlcv).close (body_size (c1 ohlcv)) cx) ∧
  (is_bullish (c5 ohlcv) = true ∧
    (0 < candle_range (c5 ohlcv) →
      LARGE_CANDLE_BODY_RATIO ≤ body_size (c5 ohlcv) / candle_range (c5 ohlcv)) ∧
    (c1 ohlcv).close < (c5 ohlcv).close)

instance (ohlcv : List Candle) : Decidable (rising_match ohlcv) := by
  unfold rising_match
  infer_instance

/-- The result dict built by a successful rising-three detection. -/
def rising_signal (ohlcv : List Candle) : Signal :=
  [("signal", Val.str "RISING_3_METHODS"),
   ("close", Val.num (c5 ohlcv).close),
   ("volume", Val.num (c5 ohlcv).volume),
   ("c1_close", Val.num (c1 ohlcv).close),
   ("c5_close", Val.num (c5 ohlcv).close)]

/-- Master characterization of the rising-three `analyze`: it never
raises and returns a signal exactly on `rising_match`. -/
theorem rising_analyze_eq (ohlcv : List Candle) :
    analyze ohlcv =
      .ok (if rising_match ohlcv then some (rising_signal ohlcv) else none) := by
  have hpy : candle_range (c1 ohlcv) ≠ 0 →
      pydiv (body_size (c1 ohlcv)) (candle_range (c1 ohlcv)) =
        .ok (body_size (c1 ohlcv) / candle_range (c1 ohlcv)) := by
    intro h
    unfold pydiv
    rw [if_neg h]
  by_cases hm : rising_match ohlcv
  · obtain ⟨h5, ⟨hb, hr0, hl⟩, hmid, hb5, h5l, hc⟩ := hm
    rw [if_pos]
    on_goal 2 => exact ⟨h5, ⟨hb, hr0, hl⟩, hmid, hb5, h5l, hc⟩
    unfold analyze rising_signal
    rw [if_neg (by omega : ¬ ohlcv.length < 5),
      if_neg (by simp [hb] : ¬ is_bullish (c1 ohlcv) = false),
      if_neg hr0, hpy hr0]
    dsimp only
    rw [if_neg (not_lt.mpr hl), middle_ok_eq, middle_ok_eq, middle_ok_eq,
      decide_eq_true (hmid (c2 ohlcv) (by simp)),
      decide_eq_true (hmid (c3 ohlcv) (by simp)),
      decide_eq_true (hmid (c4 ohlcv) (by simp))]
    dsimp only
    rw [if_neg (by simp [hb5] : ¬ is_bullish (c5 ohlcv) = false),
      c5_large_ok_eq, decide_eq_true h5l]
    dsimp only
    rw [if_neg (not_le.mpr hc)]
  · rw [if_neg hm]
    unfold analyze
    by_cases h5 : ohlcv.length < 5
    · rw [if_pos h5]
    · rw [if_neg h5]
      by_cases hb1 : is_bullish (c1 ohlcv) = false
      · rw [if_pos hb1]
      · rw [if_neg hb1]
        have hb1' : is_bullish (c1 ohlcv) = true := by
          revert hb1
          cases is_bullish (c1 ohlcv) <;> simp
        by_cases hr0 : candle_range (c1 ohlcv) = 0
        · rw [if_pos hr0]
        · rw [if_neg hr0, hpy hr0]
          dsimp only
          by_cases hlarge : body_size (c1 ohlcv) / candle_range (c1 ohlcv) <
              LARGE_CANDLE_BODY_RATIO
          · rw [if_pos hlarge]
          · rw [if_neg hlarge, middle_ok_eq, middle_ok_eq, middle_ok_eq]
            by_cases hm2 : middle_pass (c1 ohlcv).opn (c1 ohlcv).close
                (body_size (c1 ohlcv)) (c2 ohlcv)
            on_goal 2 =>
              rw [decide_eq_false hm2]
            · rw [decide_eq_true hm2]
              by_cases hm3 : middle_pass (c1 ohlcv).opn (c1 ohlcv).close
                  (body_size (c1 ohlcv)) (c3 ohlcv)
              on_goal 2 =>
                rw [decide_eq_false hm3]
              · rw [decide_eq_true hm3]
                by_cases hm4 : middle_pass (c1 ohlcv).opn (c1 ohlcv).close
                    (body_size (c1 ohlcv)) (c4 ohlcv)
                on_goal 2 =>
                  rw [decide_eq_false hm4]
                · rw [decide_eq_true hm4]
                  dsimp only
                  by_cases hb5 : is_bullish (c5 ohlcv) = false
                  · rw [if_pos hb5]
                  · rw [if_neg hb5]
                    have hb5' : is_bullish (c5 ohlcv) = true := by
                      revert hb5
                      cases is_bullish (c5 ohlcv) <;> simp
                    rw [c5_large_ok_eq]
                    by_cases h5l : 0 < candle_range (c5 ohlcv) →
                        LARGE_CANDLE_BODY_RATIO ≤
                          body_size (c5 ohlcv) / candle_range (c5 ohlcv)
                    on_goal 2 =>
                      rw [decide_eq_false h5l]
                    · rw [decide_eq_true h5l]
                      dsimp only
                      by_cases hc : (c5 ohlcv).close ≤ (c1 ohlcv).close
                      · rw [if_pos hc]
                      · exact absurd ⟨by omega, ⟨hb1', hr0, not_lt.mp hlarge⟩,
                          by
                            intro cx hcx
                            simp only [List.mem_cons,
                              List.not_mem_nil, or_false] at hcx
                            rcases hcx with h | h | h <;> rw [h]
                            exacts [hm2, hm3, hm4],
                          hb5', h5l, not_le.mp hc⟩ hm

end Rising3methods

/-- Unrolling the scanner loop: the accumulators are only appended to, so
a run is the initial accumulators followed by one `filterMap` over the
symbol list for the collected signals and one for the error log lines. -/
theorem scan_go_eq (analyzeFn : List Candle → Except Unit (Option Signal))
    (fetch : Fetcher) (timeframe : String) (limit : ℤ)
    (symbols : List String) (results : List Signal) (logged : List LogEvent) :
    scan_go analyzeFn fetch timeframe limit results logged symbols =
      ⟨results ++ symbols.filterMap (fun symbol =>
          match fetch symbol timeframe limit with
          | .ok series =>
            if series = [] then none
            else
              match analyzeFn series with
              | .ok (some result) =>
                some (result ++ [("symbol", Val.str symbol)])
              | _ => none
          | _ => none),
        logged ++ symbols.filterMap (fun symbol =>
          match fetch symbol timeframe limit with
          | .network => some (.network symbol)
          | .exchange => some (.exchange symbol)
          | .other => some (.unexpected symbol)
          | .ok series =>
            if series = [] then none
            else
              match analyzeFn series with
              | .error _ => some (.unexpected symbol)
              | .ok _ => none)⟩ := by
  induction symbols generalizing results logged with
  | nil => simp [scan_go]
  | cons s rest ih =>
    unfold scan_go
    cases hf : fetch s timeframe limit with
    | network => simp [hf, ih, List.filterMap_cons]
    | exchange => simp [hf, ih, List.filterMap_cons]
    | other => simp [hf, ih, List.filterMap_cons]
    | ok series =>
      by_cases hse : series = []
      · simp [hf, hse, ih, List.filterMap_cons]
      · cases ha : analyzeFn series with
        | error e => simp [hf, hse, ha, ih, List.filterMap_cons]
        | ok o =>
          cases o with
          | none => simp [hf, hse, ha, ih, List.filterMap_cons]
          | some result => simp [hf, hse, ha, ih, List.filterMap_cons]

/-- The last element of a list is the last element of any of its
non-empty suffixes. -/
theorem getLastD_drop (l : List α) (d : ℕ) (a : α) (h : l.drop d ≠ []) :
    (l.drop d).getLastD a = l.getLastD a := by
  induction l generalizing d a with
  | nil => simp at h
  | cons x xs ih =>
    cases d with
    | zero => rfl
    | succ d =>
      rw [List.drop_succ_cons] at h ⊢
      have hxs : xs ≠ [] := by
        intro hx
        rw [hx, List.drop_nil] at h
        exact h rfl
      rw [ih d a h, List.getLastD_cons]
      obtain ⟨y, ys, rfl⟩ := List.exists_cons_of_ne_nil hxs
      rw [List.getLastD_cons, List.getLastD_cons]

namespace Buyonbreakout

/-- All quantities the breakout detector reads are functions of the last
21 candles: two series of equal length `≥ 21` that agree on their last 21
candles give identical close/volume extracts. -/
theorem components_suffix (s1 s2 : List Candle)
    (hlen : s1.length = s2.length) (h21 : 21 ≤ s1.length)
    (hsuf : s1.drop (s1.length - 21) = s2.drop (s2.length - 21)) :
    current_close s1 = current_close s2 ∧
    current_volume s1 = current_volume s2 ∧
    lookback_closes s1 = lookback_closes s2 ∧
    lookback_volumes s1 = lookback_volumes s2 := by
  have hd1 : (s1.drop (s1.length - 21)).length = 21 := by
    rw [List.length_drop]
    omega
  have hcur : ∀ f : Candle → ℚ,
      (s1.map f).getLastD 0 = (s2.map f).getLastD 0 := by
    intro f
    have hne1 : (s1.map f).drop (s1.length - 21) ≠ [] := by
      rw [← List.map_drop]
      intro hc
      rw [List.map_eq_nil_iff] at hc
      rw [hc] at hd1
      simp at hd1
    have hne2 : (s2.map f).drop (s2.length - 21) ≠ [] := by
      rw [← List.map_drop, ← hsuf]
      rw [← List.map_drop] at hne1
      exact hne1
    rw [← getLastD_drop (s1.map f) (s1.length - 21) 0 hne1,
      ← getLastD_drop (s2.map f) (s2.length - 21) 0 hne2,
      ← List.map_drop, ← List.map_drop, hsuf]
  have hlook : ∀ f : Candle → ℚ,
      ((s1.map f).drop ((s1.map f).length - 21)).take 20 =
        ((s2.map f).drop ((s2.map f).length - 21)).take 20 := by
    intro f
    rw [List.length_map, List.length_map, ← List.map_drop, ← List.map_drop,
      hsuf]
  exact ⟨hcur _, hcur _, hlook _, hlook _⟩

end Buyonbreakout

namespace Notification

/-- Recursive reformulation of the chunking comprehension: first 20, then
the chunks of the rest. -/
def chunks_rec : List Signal → List (List Signal)
  | [] => []
  | x :: xs => ((x :: xs).take 20) :: chunks_rec ((x :: xs).drop 20)
termination_by l => l.length
decreasing_by
  simp
  omega

/-- Shifting a `range'` start by one step is mapping `+ step` over it. -/
theorem range'_shift (k s step : ℕ) :
    List.range' (s + step) k step = (List.range' s k step).map (· + step) := by
  induction k generalizing s with
  | zero => simp
  | succ k ih =>
    rw [List.range'_succ, List.range'_succ, List.map_cons, ← ih (s + step)]

/-- The comprehension `[results[i:i+20] for i in range(0, len, 20)]`
equals the recursive chunking. -/
theorem chunks_of_20_eq_rec (l : List Signal) : chunks_of_20 l = chunks_rec l := by
  have main : ∀ n (l : List Signal), l.length ≤ n → chunks_of_20 l = chunks_rec l := by
    intro n
    induction n with
    | zero =>
      intro l hl
      have hnil : l = [] := List.length_eq_zero.mp (Nat.le_zero.mp hl)
      subst hnil
      simp [chunks_of_20, chunks_rec]
    | succ n ih =>
      intro l hl
      cases l with
      | nil => simp [chunks_of_20, chunks_rec]
      | cons x xs =>
        have hcount : ((x :: xs).length + 19) / 20 =
            (((x :: xs).drop 20).length + 19) / 20 + 1 := by
          rw [List.length_drop]
          have hpos : 1 ≤ (x :: xs).length := by simp
          omega
        have hlen : ((x :: xs).drop 20).length ≤ n := by
          simp only [List.length_drop, List.length_cons] at hl ⊢
          omega
        rw [chunks_rec, ← ih ((x :: xs).drop 20) hlen]
        unfold chunks_of_20
        rw [hcount, List.range'_succ, range'_shift, List.map_cons, List.map_map]
        congr 1
        apply List.map_congr_left
        intro i _
        simp only [Function.comp_apply, List.drop_drop]
        rw [Nat.add_comm 20 i]
  exact main l.length l le_rfl

/-- Every chunk holds at most 20 signals. -/
theorem chunks_of_20_le (l : List Signal) :
    ∀ c ∈ chunks_of_20 l, c.length ≤ 20 := by
  rw [chunks_of_20_eq_rec]
  have main : ∀ n (l : List Signal), l.length ≤ n →
      ∀ c ∈ chunks_rec l, c.length ≤ 20 := by
    intro n
    induction n with
    | zero =>
      intro l hl
      have hnil : l = [] := List.length_eq_zero.mp (Nat.le_zero.mp hl)
      subst hnil
      intro c hc
      simp [chunks_rec] at hc
    | succ n ih =>
      intro l hl c hc
      cases l with
      | nil => simp [chunks_rec] at hc
      | cons x xs =>
        rw [chunks_rec] at hc
        rcases List.mem_cons.mp hc with h | h
        · rw [h]
          simp
        · exact ih ((x :: xs).drop 20) (by simp only [List.length_drop, List.length_cons] at hl ⊢; omega) c h
  exact main l.length l le_rfl

/-- Concatenating the chunks gives back the original result list: nothing
is lost, duplicated, or reordered across chunk boundaries. -/
theorem chunks_of_20_join (l : List Signal) :
    (chunks_of_20 l).flatten = l := by
  rw [chunks_of_20_eq_rec]
  have main : ∀ n (l : List Signal), l.length ≤ n → (chunks_rec l).flatten = l := by
    intro n
    induction n with
    | zero =>
      intro l hl
      have hnil : l = [] := List.length_eq_zero.mp (Nat.le_zero.mp hl)
      subst hnil
      simp [chunks_rec]
    | succ n ih =>
      intro l hl
      cases l with
      | nil => simp [chunks_rec]
      | cons x xs =>
        rw [chunks_rec, List.flatten_cons,
          ih ((x :: xs).drop 20) (by simp only [List.length_drop, List.length_cons] at hl ⊢; omega),
          List.take_append_drop]
  exact main l.length l le_rfl

end Notification

/-! ## Concrete inputs used by the claims -/

/-- The 20 lookback candles shared by the breakout test series: close 10,
volume 5, well-formed. -/
def lb_candle : Candle := ⟨0, 10, 11, 9, 10, 5⟩

/-- Last 21 candles of the breakout example: 20 lookback candles and a
current candle with close 11 and volume 6. -/
def ex_tail21 : List Candle := List.replicate 20 lb_candle ++ [⟨0, 10, 11, 9, 11, 6⟩]

/-- The spec's breakout example: 22 candles, lookback closes all 10 with
mean volume 5, current close 11 with volume 6. -/
def ex_breakout : List Candle := lb_candle :: ex_tail21

/-- The same series with a different (ignored) oldest candle. -/
def ex_breakout_head2 : List Candle := ⟨0, 99, 99, 99, 99, 99⟩ :: ex_tail21

/-- The spec's negative breakout example: current close 9 (below the
lookback high 10) with a large volume. -/
def ex_no_breakout : List Candle :=
  lb_candle :: (List.replicate 20 lb_candle ++ [⟨0, 10, 11, 9, 9, 100⟩])

/-- A well-formed 22-candle series whose 20 lookback volumes are all 0
while the current candle breaks out with positive volume. -/
def ex_zero_volume : List Candle :=
  ⟨0, 10, 11, 9, 10, 0⟩ :: (List.replicate 20 (⟨0, 10, 11, 9, 10, 0⟩ : Candle) ++
    [⟨0, 10, 12, 9, 12, 3⟩])

/-- A second all-zero-lookback-volume breakout series (different prices). -/
def ex_div_by_zero : List Candle :=
  ⟨0, 5, 6, 4, 5, 0⟩ :: (List.replicate 20 (⟨0, 5, 6, 4, 5, 0⟩ : Candle) ++
    [⟨0, 5, 6, 4, 6, 2⟩])

/-! ## Claim C2 -/

/-- C2, counterexample: the claim "analyze never raises on well-formed
input; the breakout vol_ratio division never divides by zero" is false:
on this well-formed series (lookback volumes all 0, breakout close with
positive volume) the breakout `analyze` evaluates
`round(current_volume / avg_volume, 2)` with `avg_volume = 0` and raises
`ZeroDivisionError`. -/
theorem claim_C2_counterexample :
    WellFormed ex_zero_volume ∧ Buyonbreakout.analyze ex_zero_volume = .error () := by
  constructor
  · intro cd hcd
    simp only [ex_zero_volume, List.mem_cons, List.mem_append,
      List.mem_replicate, List.not_mem_nil, or_false] at hcd
    rcases hcd with h | ⟨-, h⟩ | h <;> rw [h] <;> norm_num
  · rw [Buyonbreakout.breakout_analyze_eq]
    norm_num [ex_zero_volume, Buyonbreakout.current_close,
      Buyonbreakout.current_volume, Buyonbreakout.highest_close,
      Buyonbreakout.avg_volume, Buyonbreakout.lookback_closes,
      Buyonbreakout.lookback_volumes, Buyonbreakout.closes,
      Buyonbreakout.volumes, List.replicate, list_max, max_def]

/-- C2 (amended): the rising-three `analyze` is total (never raises), and
the breakout `analyze` raises exactly when the series is long enough,
both breakout conditions hold, and the mean lookback volume is 0 — a case
well-formedness does not exclude, since the invariant constrains prices
only.  On every other input, including all well-formed series with a
nonzero mean lookback volume, neither detector raises. -/
theorem claim_C2 :
    (∀ ohlcv : List Candle, ∃ o, Rising3methods.analyze ohlcv = .ok o) ∧
    (∀ ohlcv : List Candle,
      Buyonbreakout.analyze ohlcv = .error () ↔
        22 ≤ ohlcv.length ∧
        (Buyonbreakout.highest_close ohlcv < Buyonbreakout.current_close ohlcv ∧
          Buyonbreakout.avg_volume ohlcv < Buyonbreakout.current_volume ohlcv) ∧
        Buyonbreakout.avg_volume ohlcv = 0) := by
  constructor
  · intro ohlcv
    rw [Rising3methods.rising_analyze_eq]
    exact ⟨_, rfl⟩
  · intro ohlcv
    rw [Buyonbreakout.breakout_analyze_eq]
    constructor
    · intro h
      split_ifs at h with h1 h2 h3 <;>
        first
          | exact ⟨by omega, h2, h3⟩
          | simp at h
    · rintro ⟨h22, hcond, havg⟩
      rw [if_neg (by omega : ¬ ohlcv.length < 22), if_pos hcond, if_pos havg]

/-! ## Claim C4 -/

/-- C4, counterexample: a 22-candle series on which both breakout
conditions hold (close 6 above the lookback high 5, volume 2 above the
mean 0) yet `analyze` does not return a signal — it raises on the
`vol_ratio` division because the mean lookback volume is 0, refuting the
claimed "signal if and only if" equivalence as stated. -/
theorem claim_C4_counterexample :
    22 ≤ ex_div_by_zero.length ∧
    (Buyonbreakout.highest_close ex_div_by_zero <
        Buyonbreakout.current_close ex_div_by_zero ∧
      Buyonbreakout.avg_volume ex_div_by_zero <
        Buyonbreakout.current_volume ex_div_by_zero) ∧
    Buyonbreakout.analyze ex_div_by_zero = .error () := by
  refine ⟨by norm_num [ex_div_by_zero, List.replicate], ?_, ?_⟩
  · norm_num [ex_div_by_zero, Buyonbreakout.current_close,
      Buyonbreakout.current_volume, Buyonbreakout.highest_close,
      Buyonbreakout.avg_volume, Buyonbreakout.lookback_closes,
      Buyonbreakout.lookback_volumes, Buyonbreakout.closes,
      Buyonbreakout.volumes, List.replicate, list_max, max_def]
  · rw [Buyonbreakout.breakout_analyze_eq]
    norm_num [ex_div_by_zero, Buyonbreakout.current_close,
      Buyonbreakout.current_volume, Buyonbreakout.highest_close,
      Buyonbreakout.avg_volume, Buyonbreakout.lookback_closes,
      Buyonbreakout.lookback_volumes, Buyonbreakout.closes,
      Buyonbreakout.volumes, List.replicate, list_max, max_def]

/-- C4 (amended): below 22 candles the breakout `analyze` returns none;
from 22 candles on, provided the mean lookback volume is nonzero (when it
is zero and both conditions hold, the `vol_ratio` computation divides by
zero instead of returning), it returns a signal — with `prev_high` the
lookback close maximum, `avg_volume` the lookback volume mean and
`vol_ratio = round(current_volume / avg_volume, 2)` — if and only if the
last close strictly exceeds the maximum of the 20 preceding closes and
the last volume strictly exceeds their mean; in particular the spec's
concrete positive example returns the signal with `prev_high = 10`,
`avg_volume = 5`, `vol_ratio = 1.2`, and with current close 9 it returns
none regardless of volume. -/
theorem claim_C4 :
    (∀ ohlcv : List Candle, ohlcv.length < 22 →
      Buyonbreakout.analyze ohlcv = .ok none) ∧
    (∀ ohlcv : List Candle, 22 ≤ ohlcv.length →
      Buyonbreakout.avg_volume ohlcv ≠ 0 →
      ((Buyonbreakout.analyze ohlcv =
          .ok (some (Buyonbreakout.breakout_signal ohlcv))) ↔
        (Buyonbreakout.highest_close ohlcv < Buyonbreakout.current_close ohlcv ∧
          Buyonbreakout.avg_volume ohlcv < Buyonbreakout.current_volume ohlcv)) ∧
      (¬ (Buyonbreakout.highest_close ohlcv < Buyonbreakout.current_close ohlcv ∧
          Buyonbreakout.avg_volume ohlcv < Buyonbreakout.current_volume ohlcv) →
        Buyonbreakout.analyze ohlcv = .ok none)) ∧
    Buyonbreakout.analyze ex_breakout =
      .ok (some [("signal", Val.str "BUY_ON_BREAKOUT"),
                 ("close", Val.num 11),
                 ("volume", Val.num 6),
                 ("prev_high", Val.num 10),
                 ("avg_volume", Val.num 5),
                 ("vol_ratio", Val.num (12/10))]) ∧
    Buyonbreakout.analyze ex_no_breakout = .ok none := by
  refine ⟨?_, ?_, ?_, ?_⟩
  · intro ohlcv h22
    rw [Buyonbreakout.breakout_analyze_eq, if_pos h22]
  · intro ohlcv h22 havg
    rw [Buyonbreakout.breakout_analyze_eq, if_neg (by omega : ¬ ohlcv.length < 22)]
    constructor
    · constructor
      · intro h
        by_cases hc : Buyonbreakout.current_close ohlcv >
              Buyonbreakout.highest_close ohlcv ∧
            Buyonbreakout.current_volume ohlcv > Buyonbreakout.avg_volume ohlcv
        · exact hc
        · rw [if_neg hc] at h
          simp at h
      · intro hc
        rw [if_pos hc, if_neg havg]
    · intro hc
      rw [if_neg hc]
  · rw [Buyonbreakout.breakout_analyze_eq]
    norm_num [ex_breakout, ex_tail21, lb_candle, Buyonbreakout.breakout_signal,
      Buyonbreakout.current_close, Buyonbreakout.current_volume,
      Buyonbreakout.highest_close, Buyonbreakout.avg_volume,
      Buyonbreakout.lookback_closes, Buyonbreakout.lookback_volumes,
      Buyonbreakout.closes, Buyonbreakout.volumes, List.replicate, list_max,
      max_def, py_round_2, round_half_even]
  · rw [Buyonbreakout.breakout_analyze_eq]
    norm_num [ex_no_breakout, lb_candle,
      Buyonbreakout.current_close, Buyonbreakout.current_volume,
      Buyonbreakout.highest_close, Buyonbreakout.avg_volume,
      Buyonbreakout.lookback_closes, Buyonbreakout.lookback_volumes,
      Buyonbreakout.closes, Buyonbreakout.volumes, List.replicate, list_max,
      max_def]

/-- C4, witness: the general characterization applied at the spec's
concrete positive example (and the short-series clause at the empty
series). -/
theorem claim_C4_witness :
    Buyonbreakout.analyze [] = .ok none ∧
    Buyonbreakout.analyze ex_breakout =
      .ok (some (Buyonbreakout.breakout_signal ex_breakout)) := by
  constructor
  · exact claim_C4.1 [] (by simp)
  · apply (claim_C4.2.1 ex_breakout (by norm_num [ex_breakout, ex_tail21,
      List.replicate]) ?_).1.mpr ?_
    · norm_num [ex_breakout, ex_tail21, lb_candle, Buyonbreakout.avg_volume,
        Buyonbreakout.lookback_volumes, Buyonbreakout.volumes, List.replicate]
    · norm_num [ex_breakout, ex_tail21, lb_candle,
        Buyonbreakout.current_close, Buyonbreakout.current_volume,
        Buyonbreakout.highest_close, Buyonbreakout.avg_volume,
        Buyonbreakout.lookback_closes, Buyonbreakout.lookback_volumes,
        Buyonbreakout.closes, Buyonbreakout.volumes, List.replicate, list_max,
        max_def]

/-! ## Claim C7 -/

namespace Buyonbreakout

/-- Two equally long series (length ≥ 22) agreeing on their last 21
candles get the same `analyze` result. -/
theorem analyze_suffix_inv (s1 s2 : List Candle)
    (hlen : s1.length = s2.length) (h22 : 22 ≤ s1.length)
    (hsuf : s1.drop (s1.length - 21) = s2.drop (s2.length - 21)) :
    analyze s1 = analyze s2 := by
  obtain ⟨hc, hv, hlc, hlv⟩ :=
    components_suffix s1 s2 hlen (by omega) hsuf
  have hh : highest_close s1 = highest_close s2 := by
    unfold highest_close
    rw [hlc]
  have ha : avg_volume s1 = avg_volume s2 := by
    unfold avg_volume
    rw [hlv]
  have hsig : breakout_signal s1 = breakout_signal s2 := by
    unfold breakout_signal
    rw [hc, hv, hh, ha]
  rw [breakout_analyze_eq, breakout_analyze_eq, hlen, hc, hv, hh, ha, hsig]

end Buyonbreakout

/-- C7: the breakout detector reads only the last 21 candles: any two
equally long series of length at least 22 agreeing on their last 21
candles get the same result, and consequently permuting (or otherwise
replacing) the candles preceding the 21-candle window leaves the result
unchanged. -/
theorem claim_C7 :
    (∀ s1 s2 : List Candle, s1.length = s2.length → 22 ≤ s1.length →
      s1.drop (s1.length - 21) = s2.drop (s2.length - 21) →
      Buyonbreakout.analyze s1 = Buyonbreakout.analyze s2) ∧
    (∀ p1 p2 t : List Candle, p1.Perm p2 → t.length = 21 →
      Buyonbreakout.analyze (p1 ++ t) = Buyonbreakout.analyze (p2 ++ t)) := by
  refine ⟨fun s1 s2 => Buyonbreakout.analyze_suffix_inv s1 s2, ?_⟩
  intro p1 p2 t hperm ht
  by_cases hp : p1 = []
  · subst hp
    rw [List.Perm.eq_nil hperm.symm]
  · apply Buyonbreakout.analyze_suffix_inv
    · simp [hperm.length_eq]
    · have : 1 ≤ p1.length := List.length_pos.mpr hp
      simp only [List.length_append, ht]
      omega
    · rw [show (p1 ++ t).length - 21 = p1.length from by simp [ht],
        show (p2 ++ t).length - 21 = p2.length from by simp [ht],
        List.drop_left, List.drop_left]

/-- C7, witness: two concrete 22-candle series differing only in the
oldest candle get the same `analyze` result. -/
theorem claim_C7_witness :
    Buyonbreakout.analyze ex_breakout = Buyonbreakout.analyze ex_breakout_head2 := by
  apply claim_C7.1
  · norm_num [ex_breakout, ex_breakout_head2, ex_tail21, List.replicate]
  · norm_num [ex_breakout, ex_tail21, List.replicate]
  · norm_num [ex_breakout, ex_breakout_head2, ex_tail21, List.replicate]

/-! ## Concrete rising-three inputs -/

/-- The spec §8 rising-three window: `c1` open 100 / close 110 (body 10 =
range), three small candles open 105 / close 106, `c5` open 108 /
close 115. -/
def ex_rising : List Candle :=
  [⟨0, 100, 110, 100, 110, 1⟩, ⟨0, 105, 106, 105, 106, 1⟩,
   ⟨0, 105, 106, 105, 106, 1⟩, ⟨0, 105, 106, 105, 106, 1⟩,
   ⟨0, 108, 115, 108, 115, 2⟩]

/-- The same window with `c5.close` lowered to 109 (≤ `c1.close` = 110):
no match. -/
def ex_rising_low_c5 : List Candle :=
  [⟨0, 100, 110, 100, 110, 1⟩, ⟨0, 105, 106, 105, 106, 1⟩,
   ⟨0, 105, 106, 105, 106, 1⟩, ⟨0, 105, 106, 105, 106, 1⟩,
   ⟨0, 101, 109, 101, 109, 2⟩]

/-- The matching window with a degenerate (zero-range, malformed but
bullish) `c5`: high = low = 100 while open 108 / close 115. -/
def ex_rising_flat_c5 : List Candle :=
  [⟨0, 100, 110, 100, 110, 1⟩, ⟨0, 105, 106, 105, 106, 1⟩,
   ⟨0, 105, 106, 105, 106, 1⟩, ⟨0, 105, 106, 105, 106, 1⟩,
   ⟨0, 108, 100, 100, 115, 2⟩]

/-- A window whose `c1` has zero range (high = low = 105) yet is bullish
(open 100 / close 110). -/
def ex_rising_flat_c1 : List Candle :=
  [⟨0, 100, 105, 105, 110, 1⟩, ⟨0, 105, 106, 105, 106, 1⟩,
   ⟨0, 105, 106, 105, 106, 1⟩, ⟨0, 105, 106, 105, 106, 1⟩,
   ⟨0, 108, 115, 108, 115, 2⟩]

/-! ## Claim C5 -/

/-- C5: the rising-three `analyze` returns a signal (with extra fields
`c1_close` and `c5_close`) exactly when the last five candles satisfy the
pattern conditions — `c1` bullish with nonzero range and body/range ≥
0.6; `c2..c4` with open and close strictly between `c1.open` and
`c1.close` and, when `c1`'s body is positive, a body at most half of it;
`c5` bullish, body/range ≥ 0.6 whenever its range is positive, and
closing strictly above `c1.close` — and returns none (immediately, on
the first failing condition) otherwise. -/
theorem claim_C5 (ohlcv : List Candle) :
    (Rising3methods.analyze ohlcv =
        .ok (some (Rising3methods.rising_signal ohlcv)) ↔
      Rising3methods.rising_match ohlcv) ∧
    (¬ Rising3methods.rising_match ohlcv →
      Rising3methods.analyze ohlcv = .ok none) := by
  constructor
  · rw [Rising3methods.rising_analyze_eq]
    by_cases h : Rising3methods.rising_match ohlcv
    · simp [h]
    · simp [h]
  · intro h
    rw [Rising3methods.rising_analyze_eq, if_neg h]

/-- C5, witness: the spec §8 window matches with `c1_close = 110` and
`c5_close = 115`, and the `c5.close = 109` mutation returns none. -/
theorem claim_C5_witness :
    Rising3methods.analyze ex_rising =
      .ok (some [("signal", Val.str "RISING_3_METHODS"),
                 ("close", Val.num 115),
                 ("volume", Val.num 2),
                 ("c1_close", Val.num 110),
                 ("c5_close", Val.num 115)]) ∧
    Rising3methods.analyze ex_rising_low_c5 = .ok none := by
  constructor
  · have h := (claim_C5 ex_rising).1.mpr (by
      norm_num [Rising3methods.rising_match, Rising3methods.middle_pass,
        Rising3methods.c1, Rising3methods.c2, Rising3methods.c3,
        Rising3methods.c4, Rising3methods.c5, Rising3methods.is_bullish,
        Rising3methods.body_size, Rising3methods.candle_range,
        Rising3methods.LARGE_CANDLE_BODY_RATIO,
        Rising3methods.SMALL_CANDLE_MAX_BODY_RATIO, ex_rising])
    rw [h]
    norm_num [Rising3methods.rising_signal, Rising3methods.c1,
      Rising3methods.c5, ex_rising]
  · apply (claim_C5 ex_rising_low_c5).2
    norm_num [Rising3methods.rising_match, Rising3methods.middle_pass,
      Rising3methods.c1, Rising3methods.c5, Rising3methods.is_bullish,
      Rising3methods.body_size, Rising3methods.candle_range,
      Rising3methods.LARGE_CANDLE_BODY_RATIO,
      Rising3methods.SMALL_CANDLE_MAX_BODY_RATIO, ex_rising_low_c5]

/-! ## Claim C6 -/

/-- C6: the zero-range guards are asymmetric — a zero-range `c1` always
yields none (for any window of length ≥ 5), while a zero-range `c5` does
not by itself fail the match: the concrete window `ex_rising_flat_c5`
(bullish `c5` with high = low, all other conditions met) still returns
the signal, the large-body check on `c5` being skipped. -/
theorem claim_C6 :
    (∀ ohlcv : List Candle, 5 ≤ ohlcv.length →
      Rising3methods.candle_range (Rising3methods.c1 ohlcv) = 0 →
      Rising3methods.analyze ohlcv = .ok none) ∧
    Rising3methods.candle_range (Rising3methods.c5 ex_rising_flat_c5) = 0 ∧
    Rising3methods.analyze ex_rising_flat_c5 =
      .ok (some [("signal", Val.str "RISING_3_METHODS"),
                 ("close", Val.num 115),
                 ("volume", Val.num 2),
                 ("c1_close", Val.num 110),
                 ("c5_close", Val.num 115)]) := by
  refine ⟨?_, ?_, ?_⟩
  · intro ohlcv h5 hr0
    rw [Rising3methods.rising_analyze_eq, if_neg]
    rintro ⟨-, ⟨-, hr, -⟩, -⟩
    exact hr hr0
  · norm_num [Rising3methods.candle_range, Rising3methods.c5, ex_rising_flat_c5]
  · rw [Rising3methods.rising_analyze_eq, if_pos (by
      norm_num [Rising3methods.rising_match, Rising3methods.middle_pass,
        Rising3methods.c1, Rising3methods.c2, Rising3methods.c3,
        Rising3methods.c4, Rising3methods.c5, Rising3methods.is_bullish,
        Rising3methods.body_size, Rising3methods.candle_range,
        Rising3methods.LARGE_CANDLE_BODY_RATIO,
        Rising3methods.SMALL_CANDLE_MAX_BODY_RATIO, ex_rising_flat_c5])]
    norm_num [Rising3methods.rising_signal, Rising3methods.c1,
      Rising3methods.c5, ex_rising_flat_c5]

/-- C6, witness: the zero-range-`c1` clause applied at a concrete window
(length 5, `c1` with high = low = 105). -/
theorem claim_C6_witness :
    5 ≤ ex_rising_flat_c1.length ∧
    Rising3methods.candle_range (Rising3methods.c1 ex_rising_flat_c1) = 0 ∧
    Rising3methods.analyze ex_rising_flat_c1 = .ok none := by
  refine ⟨by norm_num [ex_rising_flat_c1], ?_, ?_⟩
  · norm_num [Rising3methods.candle_range, Rising3methods.c1, ex_rising_flat_c1]
  · exact claim_C6.1 ex_rising_flat_c1 (by norm_num [ex_rising_flat_c1])
      (by norm_num [Rising3methods.candle_range, Rising3methods.c1,
        ex_rising_flat_c1])

/-! ## Claim C10 -/

namespace Rising3methods

/-- Under a positive reference body the short-circuit guard in the loop
body is taken, so the guarded and unguarded checks coincide. -/
theorem middle_ok_eq_always (a b c : ℚ) (cx : Candle) (hc : 0 < c) :
    middle_ok a b c cx = middle_check_always a b c cx := by
  unfold middle_ok middle_check_always
  split_ifs with h1 h2 h3 <;> first | rfl | exact absurd hc h3

end Rising3methods

/-- C10: whenever the rising-three detector evaluates the middle-candle
body-ratio division, the divisor `c1_body` is strictly positive — a
bullish candle has a positive body, so the `c1_body > 0` guard is always
true at its evaluation point; consequently the small-body check is never
actually skipped: `analyze` coincides with the variant that applies the
check unconditionally. -/
theorem claim_C10 :
    (∀ cd : Candle, Rising3methods.is_bullish cd = true →
      0 < Rising3methods.body_size cd) ∧
    (∀ ohlcv : List Candle,
      Rising3methods.analyze ohlcv = Rising3methods.analyze_check_always ohlcv) := by
  have hb : ∀ cd : Candle, Rising3methods.is_bullish cd = true →
      0 < Rising3methods.body_size cd := by
    intro cd h
    unfold Rising3methods.is_bullish at h
    rw [decide_eq_true_eq] at h
    unfold Rising3methods.body_size
    rw [abs_pos]
    exact sub_ne_zero.mpr (ne_of_gt h)
  refine ⟨hb, ?_⟩
  intro ohlcv
  unfold Rising3methods.analyze Rising3methods.analyze_check_always
  by_cases h5 : ohlcv.length < 5
  · rw [if_pos h5, if_pos h5]
  · rw [if_neg h5, if_neg h5]
    by_cases hb1 : Rising3methods.is_bullish (Rising3methods.c1 ohlcv) = false
    · rw [if_pos hb1, if_pos hb1]
    · rw [if_neg hb1, if_neg hb1]
      have hb1' : Rising3methods.is_bullish (Rising3methods.c1 ohlcv) = true := by
        revert hb1
        cases Rising3methods.is_bullish (Rising3methods.c1 ohlcv) <;> simp
      have hpos := hb _ hb1'
      rw [Rising3methods.middle_ok_eq_always _ _ _ (Rising3methods.c2 ohlcv) hpos,
        Rising3methods.middle_ok_eq_always _ _ _ (Rising3methods.c3 ohlcv) hpos,
        Rising3methods.middle_ok_eq_always _ _ _ (Rising3methods.c4 ohlcv) hpos]

/-- C10, witness: the positive-body fact applied at the concrete bullish
candle `c1` of the spec's example window. -/
theorem claim_C10_witness :
    Rising3methods.is_bullish ⟨0, 100, 110, 100, 110, 1⟩ = true ∧
    0 < Rising3methods.body_size ⟨0, 100, 110, 100, 110, 1⟩ := by
  constructor
  · norm_num [Rising3methods.is_bullish]
  · exact claim_C10.1 ⟨0, 100, 110, 100, 110, 1⟩
      (by norm_num [Rising3methods.is_bullish])

/-! ## Claim C1 -/

/-- C1, counterexample: even on a trivial concrete input with a known
strategy name, `run_screener` completes with return value `None`
(modelled `none`), not the signal sequence it computed: the claimed
contract `runScreener(...) -> sequence<Signal>` fails — the value
returned to the caller differs from `completed results (some results)`
demanded by the claim. -/
theorem claim_C1_counterexample :
    Cmd.run_screener (fun _ => []) (fun _ _ _ => .ok []) "buyonbreakout"
        "1m" 100 "USDT" none =
      .completed [] none ∧
    Cmd.RunResult.completed ([] : List Signal) none ≠
      Cmd.RunResult.completed ([] : List Signal) (some []) := by
  constructor
  · rfl
  · simp

/-- C1 (amended): `run_screener`, called with a known strategy name,
computes the Signal sequence produced by the scan and passes it to
`print_results` for display, but returns `None` — not the sequence — to
its caller. -/
theorem claim_C1 (list_symbols : String → List String) (fetch : Fetcher)
    (timeframe : String) (limit : ℤ) (quote : String) (top_n : Option ℤ) :
    Cmd.run_screener list_symbols fetch "buyonbreakout" timeframe limit
        quote top_n =
      .completed ((Buyonbreakout.run fetch
        (Cmd.apply_top (list_symbols quote) top_n) timeframe limit).results)
        none ∧
    Cmd.run_screener list_symbols fetch "rising3methods" timeframe limit
        quote top_n =
      .completed ((Rising3methods.run fetch
        (Cmd.apply_top (list_symbols quote) top_n) timeframe limit).results)
        none := by
  exact ⟨rfl, rfl⟩

/-! ## Claim C3 -/

/-- C3: a breakout scanner run is total (the model needs no error
outcome: every per-symbol failure is consumed by the loop's handlers) and
returns exactly the signals of the symbols whose fetch succeeded with a
non-empty series and whose window matched the detector, in the original
symbol order, each with its symbol attached; the error log contains
exactly the symbols whose fetch raised (`network`/`exchange` classified,
anything else — including a detector error — as `unexpected`), so a
classified fetch failure is logged and skipped while an empty fetched
series is skipped silently. -/
theorem claim_C3 (fetch : Fetcher) (symbols : List String)
    (timeframe : String) (limit : ℤ) :
    (Buyonbreakout.run fetch symbols timeframe limit).results =
      symbols.filterMap (fun symbol =>
        match fetch symbol timeframe limit with
        | .ok series =>
          if series = [] then none
          else
            match Buyonbreakout.analyze series with
            | .ok (some result) =>
              some (result ++ [("symbol", Val.str symbol)])
            | _ => none
        | _ => none) ∧
    (Buyonbreakout.run fetch symbols timeframe limit).logged =
      symbols.filterMap (fun symbol =>
        match fetch symbol timeframe limit with
        | .network => some (.network symbol)
        | .exchange => some (.exchange symbol)
        | .other => some (.unexpected symbol)
        | .ok series =>
          if series = [] then none
          else
            match Buyonbreakout.analyze series with
            | .error _ => some (.unexpected symbol)
            | .ok _ => none) := by
  unfold Buyonbreakout.run
  rw [scan_go_eq]
  exact ⟨by simp, by simp⟩

/-! ## Claim C9 -/

/-- C9: for every argument set the CLI parser accepts, evaluating `main`
reaches the `run_screener(...)` call with the keyword argument
`webhook_url`, which `cmd.run_screener` does not accept, so the call
raises `TypeError` before any scan starts and the CLI entry point never
completes a scan. -/
theorem claim_C9 (list_symbols : String → List String) (fetch : Fetcher)
    (args : MainCli.Args) (hv : MainCli.args_valid args) :
    MainCli.main list_symbols fetch args = .typeError := by
  clear hv
  unfold MainCli.main
  rw [if_neg]
  simp [MainCli.main_call_kwargs, MainCli.run_screener_params]

/-- C9, witness: a concrete accepted argument set reaches the
`TypeError`. -/
theorem claim_C9_witness :
    MainCli.args_valid ⟨"buyonbreakout", "1m", 100, "USDT", none, none⟩ ∧
    MainCli.main (fun _ => []) (fun _ _ _ => .ok [])
      ⟨"buyonbreakout", "1m", 100, "USDT", none, none⟩ = .typeError := by
  constructor
  · constructor <;> simp [MainCli.VALID_STRATEGIES, MainCli.VALID_TIMEFRAMES]
  · exact claim_C9 _ _ _ ⟨by simp [MainCli.VALID_STRATEGIES],
      by simp [MainCli.VALID_TIMEFRAMES]⟩

/-! ## Claim C8 -/

/-- C8: with a configured webhook and a non-empty result list,
`send_results` posts the header summary (strategy label, scan timestamp,
match count) as a separate leading message, followed by one message per
chunk of the `[results[i:i+20] for i in range(0, len(results), 20)]`
partition; every chunk holds at most 20 signals and their concatenation
is the original result list in order. -/
theorem claim_C8 (notifier : Notification.DiscordNotifier)
    (post : Notification.Embed → Bool) (now : String) (results : List Signal)
    (strategy timeframe quote : String)
    (hurl : notifier.webhook_url ≠ "") (hres : results ≠ []) :
    (Notification.send_results notifier post now results strategy timeframe
        quote).1 =
      Notification.Embed.header
          ((Notification.STRATEGY_META.lookup strategy).getD
            (Notification.default_strategy_meta strategy)).label
          timeframe quote results.length now ::
        (Notification.chunks_of_20 results).enum.map
          (fun p => Notification.Embed.results p.2 p.1
            (Notification.chunks_of_20 results).length) ∧
    (∀ c ∈ Notification.chunks_of_20 results, c.length ≤ 20) ∧
    (Notification.chunks_of_20 results).flatten = results := by
  refine ⟨?_, Notification.chunks_of_20_le results,
    Notification.chunks_of_20_join results⟩
  unfold Notification.send_results
  rw [if_neg hurl, if_neg hres]

/-- C8, witness: a single-signal result list yields the header plus one
chunk message holding that signal, and the chunk concatenation equality
instantiated there. -/
theorem claim_C8_witness :
    (Notification.send_results ⟨"https://discord.example/webhook"⟩
        (fun _ => true) "2026-10-12 00:00 UTC"
        [[("signal", Val.str "BUY_ON_BREAKOUT")]]
        "buyonbreakout" "1m" "USDT").1 =
      [Notification.Embed.header "Buy on Breakout" "1m" "USDT" 1
        "2026-10-12 00:00 UTC",
       Notification.Embed.results [[("signal", Val.str "BUY_ON_BREAKOUT")]] 0 1] ∧
    (Notification.chunks_of_20
        [[("signal", Val.str "BUY_ON_BREAKOUT")]]).flatten =
      [[("signal", Val.str "BUY_ON_BREAKOUT")]] := by
  have h := claim_C8 ⟨"https://discord.example/webhook"⟩ (fun _ => true)
    "2026-10-12 00:00 UTC" [[("signal", Val.str "BUY_ON_BREAKOUT")]]
    "buyonbreakout" "1m" "USDT" (by simp) (by simp)
  refine ⟨?_, h.2.2⟩
  rw [h.1]
  simp [Notification.chunks_of_20, Notification.STRATEGY_META,
    List.range', List.lookup]

/-- C2, witness: the raising characterization applied at the concrete
all-zero-lookback-volume breakout series. -/
theorem claim_C2_witness :
    Buyonbreakout.analyze ex_div_by_zero = .error () := by
  apply (claim_C2.2 ex_div_by_zero).mpr
  refine ⟨by norm_num [ex_div_by_zero, List.replicate], ?_, ?_⟩ <;>
    norm_num [ex_div_by_zero, Buyonbreakout.current_close,
      Buyonbreakout.current_volume, Buyonbreakout.highest_close,
      Buyonbreakout.avg_volume, Buyonbreakout.lookback_closes,
      Buyonbreakout.lookback_volumes, Buyonbreakout.closes,
      Buyonbreakout.volumes, List.replicate, list_max, max_def]
